import Mathlib

/-!
Verification of the saya proving-orchestrator core against its specification.

Each definition below is a shallow embedding of a function from the repository
sources (file and line references in the doc comments).  Machine integers are
modelled as `Nat` with explicit bounds where a conversion matters; fallible
operations are modelled with `Option`; the per-iteration environment (remote
call results, shutdown observations) is passed explicitly.
-/

/-! ## String containment (Rust `str::contains`)

`polling.rs:57` tests `err.contains("BlockNotFound")`.  We embed substring
containment on the character lists of the two strings. -/

/-- `leadSeg pat s` is true when `pat` is a leading segment of `s`. -/
def leadSeg : List Char → List Char → Bool
  | [], _ => true
  | _ :: _, [] => false
  | p :: ps, c :: cs => (p = c) && leadSeg ps cs

/-- `hasSeg pat s` is true when `pat` occurs contiguously somewhere in `s`. -/
def hasSeg (pat : List Char) : List Char → Bool
  | [] => leadSeg pat []
  | c :: cs => leadSeg pat (c :: cs) || hasSeg pat cs

/-- Embedding of Rust `str::contains` with a string pattern. -/
def strContainsSub (s pat : String) : Bool :=
  hasSeg pat.toList s.toList

/-! ## Block ingestor (`src/saya/core/src/block_ingestor/polling.rs`)

`PollingBlockIngestor::run` (polling.rs:39-102) loops: prove the current
block; on failure optionally log, then back off 5 s under shutdown-select and
retry the same block; on success fetch tx metadata (unwrap), dump the PIE to a
debug file (unwrap × 2), probe shutdown, and send the `NewBlock` under
shutdown-select.  The select's send arm has two completions: the item is
delivered, or — when the downstream receiver has been dropped — the bounded
mpsc `send` resolves immediately with `Err`.  polling.rs:94 discards that
`Result`, so `current_block` is advanced (polling.rs:97) whenever the send
arm completes, delivered or not.  A tokio mpsc channel, once closed by
dropping the receiver, stays closed: no later send can deliver. -/

/-- `PROVE_BLOCK_FAILURE_BACKOFF` (polling.rs:15), in seconds. -/
def PROVE_BLOCK_FAILURE_BACKOFF_SECS : Nat := 5

/-- A `NewBlock` item (block number, PIE artifact, transaction count). -/
structure NewBlock where
  number : Nat
  pie : Nat
  nTxs : Nat
deriving DecidableEq

/-- Outcome of `prove_block::prove_block` for one iteration (polling.rs:43-54):
either a PIE or the stringified error. -/
inductive ProveResult where
  | ok (pie : Nat)
  | err (msg : String)
deriving DecidableEq

/-- Loop control after one ingestor iteration. -/
inductive Control where
  | cont
  | brk
  | panicked
deriving DecidableEq

/-- Resolution of the shutdown-selectable send (polling.rs:92-95): shutdown
wins the select and the worker breaks; or the send arm completes — either the
item was delivered into the channel, or the receiver had been dropped and
`send` resolved with `Err` (the arm's `Result` is discarded at
polling.rs:94). -/
inductive SendOutcome where
  | shutdownWon
  | delivered
  | channelClosed
deriving DecidableEq

/-- Environment of one ingestor loop iteration: the proving outcome and the
results of the external operations the iteration performs.  `backoffShutdown`
is whether shutdown wins the failure-backoff select (polling.rs:61-64);
`shutdownAfterPie` is the probe after PIE generation (polling.rs:81); `send`
is how the select around `channel.send` resolves (polling.rs:92-95), were it
reached. -/
structure IngestStep where
  prove : ProveResult
  rpcOk : Bool
  nTxs : Nat
  fileOk : Bool
  jsonOk : Bool
  shutdownAfterPie : Bool
  backoffShutdown : Bool
  send : SendOutcome
deriving DecidableEq

/-- Observable result of one ingestor iteration: whether the error branch
logged, the emitted block if any, the back-off slept (seconds) if any, how
the send arm of the select completed (`none` when no send arm completed),
the next value of `current_block`, and the loop control. -/
structure IterOut where
  logged : Bool
  emitted : Option NewBlock
  slept : Option Nat
  sendArm : Option SendOutcome
  next : Nat
  control : Control
deriving DecidableEq

/-- One iteration of `PollingBlockIngestor::run` (polling.rs:42-98).
On `Err`: log unless the message contains `"BlockNotFound"` (polling.rs:57-59),
then select shutdown against a 5 s sleep (polling.rs:61-64) — `current_block`
is unchanged either way.  On `Ok`: unwrap the RPC metadata fetch
(polling.rs:70), the debug-file creation (polling.rs:76) and the JSON dump
(polling.rs:77) in that order; probe shutdown (polling.rs:81); then select
shutdown against `channel.send` (polling.rs:92-95) — if shutdown wins the
worker breaks, and if the send arm completes its `Result` is discarded and
`current_block` is advanced (polling.rs:97) whether the item was delivered
or the receiver was already dropped. -/
def ingestIter (cur : Nat) (s : IngestStep) : IterOut :=
  match s.prove with
  | ProveResult.err msg =>
    let logged := ! strContainsSub msg "BlockNotFound"
    if s.backoffShutdown then
      IterOut.mk logged none none none cur Control.brk
    else
      IterOut.mk logged none (some PROVE_BLOCK_FAILURE_BACKOFF_SECS) none cur Control.cont
  | ProveResult.ok pie =>
    if s.rpcOk then
      if s.fileOk then
        if s.jsonOk then
          if s.shutdownAfterPie then
            IterOut.mk false none none none cur Control.brk
          else
            match s.send with
            | SendOutcome.shutdownWon =>
              IterOut.mk false none none none cur Control.brk
            | SendOutcome.delivered =>
              IterOut.mk false (some (NewBlock.mk cur pie s.nTxs)) none
                (some SendOutcome.delivered) (cur + 1) Control.cont
            | SendOutcome.channelClosed =>
              IterOut.mk false none none (some SendOutcome.channelClosed)
                (cur + 1) Control.cont
        else
          IterOut.mk false none none none cur Control.panicked
      else
        IterOut.mk false none none none cur Control.panicked
    else
      IterOut.mk false none none none cur Control.panicked

/-- The stream of `NewBlock` items the ingestor emits over a finite run of
iteration environments, starting from `cur` (polling.rs:42-98). -/
def ingestRun : Nat → List IngestStep → List NewBlock
  | _, [] => []
  | cur, s :: rest =>
    match (ingestIter cur s).control, (ingestIter cur s).emitted with
    | Control.cont, some b => b :: ingestRun (ingestIter cur s).next rest
    | Control.cont, none => ingestRun (ingestIter cur s).next rest
    | Control.brk, _ => []
    | Control.panicked, _ => []

lemma ingestIter_cases (cur : Nat) (s : IngestStep) :
    ((ingestIter cur s).emitted = none ∧ (ingestIter cur s).next = cur ∧
      (ingestIter cur s).sendArm = none) ∨
    ((ingestIter cur s).emitted = none ∧ (ingestIter cur s).next = cur + 1 ∧
      (ingestIter cur s).control = Control.cont ∧ s.send = SendOutcome.channelClosed ∧
      (ingestIter cur s).sendArm = some SendOutcome.channelClosed) ∨
    (∃ pie, (ingestIter cur s).emitted = some (NewBlock.mk cur pie s.nTxs) ∧
      (ingestIter cur s).next = cur + 1 ∧ (ingestIter cur s).control = Control.cont ∧
      s.send = SendOutcome.delivered ∧
      (ingestIter cur s).sendArm = some SendOutcome.delivered) := by
  unfold ingestIter
  cases s.prove with
  | err msg =>
    by_cases h : s.backoffShutdown <;> simp [h]
  | ok pie =>
    by_cases h1 : s.rpcOk <;> by_cases h2 : s.fileOk <;> by_cases h3 : s.jsonOk <;>
      by_cases h4 : s.shutdownAfterPie <;> cases h5 : s.send <;>
      simp [h1, h2, h3, h4, h5]

/-- Tokio mpsc closure is permanent: once the downstream receiver is dropped,
no later send can deliver.  An iteration-environment list represents a real
execution only when no `delivered` outcome follows a `channelClosed`
outcome. -/
def channelConsistent : List IngestStep → Bool
  | [] => true
  | s :: rest =>
    (s.send != SendOutcome.channelClosed
      || rest.all (fun s2 => s2.send != SendOutcome.delivered))
    && channelConsistent rest

lemma ingestRun_no_delivered :
    ∀ (steps : List IngestStep) (cur : Nat),
      (∀ s2 ∈ steps, s2.send ≠ SendOutcome.delivered) → ingestRun cur steps = [] := by
  intro steps
  induction steps with
  | nil => intro cur _; rfl
  | cons s rest ih =>
    intro cur hall
    have hs : s.send ≠ SendOutcome.delivered := hall s (List.mem_cons_self s rest)
    have htail : ∀ s2 ∈ rest, s2.send ≠ SendOutcome.delivered :=
      fun s2 h2 => hall s2 (List.mem_cons_of_mem s h2)
    rcases ingestIter_cases cur s with ⟨he, hn, _⟩ | ⟨he, hn, hc, _, _⟩ |
      ⟨pie, he, hn, hc, hsend, _⟩
    · cases hco : (ingestIter cur s).control with
      | cont => simp [ingestRun, hco, he, ih _ htail]
      | brk => simp [ingestRun, hco, he]
      | panicked => simp [ingestRun, hco, he]
    · simp [ingestRun, hc, he, ih _ htail]
    · exact absurd hsend hs

lemma ingestRun_map_number :
    ∀ (steps : List IngestStep), channelConsistent steps = true →
      ∀ cur : Nat, (ingestRun cur steps).map NewBlock.number
        = List.range' cur (ingestRun cur steps).length := by
  intro steps
  induction steps with
  | nil => intro _ cur; simp [ingestRun]
  | cons s rest ih =>
    intro hcc cur
    have hcc2 := hcc
    simp only [channelConsistent, Bool.and_eq_true, Bool.or_eq_true, bne_iff_ne,
      ne_eq, List.all_eq_true] at hcc2
    obtain ⟨hor, htail⟩ := hcc2
    rcases ingestIter_cases cur s with ⟨he, hn, _⟩ | ⟨he, hn, hc, hsend, _⟩ |
      ⟨pie, he, hn, hc, _, _⟩
    · cases hco : (ingestIter cur s).control with
      | cont => simp [ingestRun, hco, he, hn, ih htail cur]
      | brk => simp [ingestRun, hco, he]
      | panicked => simp [ingestRun, hco, he]
    · have hnodel : ∀ s2 ∈ rest, s2.send ≠ SendOutcome.delivered := by
        rcases hor with h | h
        · exact absurd hsend h
        · intro s2 h2
          simpa using h s2 h2
      have hrest : ingestRun (cur + 1) rest = [] :=
        ingestRun_no_delivered rest (cur + 1) hnodel
      simp [ingestRun, hc, he, hn, hrest]
    · simp [ingestRun, hc, he, hn, ih htail (cur + 1), List.range'_succ]

lemma ingestRun_get_number (start : Nat) (steps : List IngestStep)
    (hcc : channelConsistent steps = true) (i : Nat)
    (h : i < (ingestRun start steps).length) :
    ((ingestRun start steps).get ⟨i, h⟩).number = start + i := by
  have hm := ingestRun_map_number steps hcc start
  have h2 : i < ((ingestRun start steps).map NewBlock.number).length := by simpa using h
  have h3 := List.get_of_eq hm ⟨i, h2⟩
  simpa using h3

/-- A concrete iteration in which the block proves, every unwrap succeeds and
shutdown is never observed, but the downstream receiver has been dropped, so
the select's send arm completes with `Err`. -/
def c2closedStep : IngestStep :=
  IngestStep.mk (ProveResult.ok 7) true 3 true true false false
    SendOutcome.channelClosed

/-- C2 counterexample: `current_block` is not advanced only after a
`NewBlock` for it has been successfully sent.  When the downstream receiver
has been dropped, the bounded mpsc send completes immediately with `Err`;
polling.rs:94 discards that `Result` and polling.rs:97 still advances
`current_block` — an advance with nothing emitted. -/
theorem C2_ingestor_consecutive_counterexample :
    (ingestIter 100 c2closedStep).next = 100 + 1
    ∧ (ingestIter 100 c2closedStep).emitted = none
    ∧ ingestRun 100 [c2closedStep] = [] := by
  refine ⟨by decide, by decide, by decide⟩

/-- C2 (amended): in any execution whose environment respects permanent
channel closure (`channelConsistent`: no delivery after the receiver is
dropped — a property of tokio mpsc channels), the emitted stream has strictly
consecutive block numbers — `out[i+1].number = out[i].number + 1` and
`out[0].number = start_block`.  `current_block` is advanced (by one) exactly
when the send arm of the shutdown-select completes — whether the item was
delivered or the send failed because the receiver was dropped, since
polling.rs:94 ignores the send's `Result` — and a `NewBlock` is emitted
exactly when that completion is a delivery, the block carrying the
pre-advance `current_block`. -/
theorem C2_ingestor_consecutive_amended (start : Nat) (steps : List IngestStep)
    (hcc : channelConsistent steps = true) :
    ((ingestRun start steps).map NewBlock.number
        = List.range' start (ingestRun start steps).length)
    ∧ (∀ (i : Nat) (h : i + 1 < (ingestRun start steps).length),
        ((ingestRun start steps).get ⟨i + 1, h⟩).number
          = ((ingestRun start steps).get ⟨i, Nat.lt_of_succ_lt h⟩).number + 1)
    ∧ (∀ h : 0 < (ingestRun start steps).length,
        ((ingestRun start steps).get ⟨0, h⟩).number = start)
    ∧ (∀ (cur : Nat) (s : IngestStep),
        ((ingestIter cur s).next = cur + 1 ↔
          ((ingestIter cur s).sendArm = some SendOutcome.delivered
            ∨ (ingestIter cur s).sendArm = some SendOutcome.channelClosed))
        ∧ ((ingestIter cur s).emitted.isSome = true ↔
            (ingestIter cur s).sendArm = some SendOutcome.delivered)
        ∧ (∀ b, (ingestIter cur s).emitted = some b →
            b.number = cur ∧ (ingestIter cur s).control = Control.cont)) := by
  refine ⟨ingestRun_map_number steps hcc start, ?_, ?_, ?_⟩
  · intro i h
    rw [ingestRun_get_number start steps hcc (i + 1) h,
      ingestRun_get_number start steps hcc i (Nat.lt_of_succ_lt h)]
    omega
  · intro h
    rw [ingestRun_get_number start steps hcc 0 h]
    omega
  · intro cur s
    rcases ingestIter_cases cur s with ⟨he, hn, ha⟩ | ⟨he, hn, hc, _, ha⟩ |
      ⟨pie, he, hn, hc, _, ha⟩
    · refine ⟨?_, ?_, ?_⟩
      · rw [hn, ha]
        simp
      · rw [he, ha]
        simp
      · intro b hb
        rw [he] at hb
        cases hb
    · refine ⟨?_, ?_, ?_⟩
      · rw [hn, ha]
        simp
      · rw [he, ha]
        simp
      · intro b hb
        rw [he] at hb
        cases hb
    · refine ⟨?_, ?_, ?_⟩
      · rw [hn, ha]
        simp
      · rw [he, ha]
        simp
      · intro b hb
        rw [he] at hb
        cases hb
        exact ⟨rfl, hc⟩

/-- A concrete two-iteration ingestor environment in which both blocks prove,
all unwraps succeed, no shutdown is observed and both sends deliver. -/
def c2steps : List IngestStep :=
  [IngestStep.mk (ProveResult.ok 7) true 3 true true false false
     SendOutcome.delivered,
   IngestStep.mk (ProveResult.ok 9) true 4 true true false false
     SendOutcome.delivered]

theorem C2_ingestor_consecutive_amended_witness :
    channelConsistent c2steps = true
    ∧ ((ingestRun 100 c2steps).get ⟨1, by decide⟩).number
        = ((ingestRun 100 c2steps).get ⟨0, by decide⟩).number + 1
    ∧ ((ingestRun 100 c2steps).get ⟨0, by decide⟩).number = 100 :=
  ⟨by decide,
   (C2_ingestor_consecutive_amended 100 c2steps (by decide)).2.1 0 (by decide),
   (C2_ingestor_consecutive_amended 100 c2steps (by decide)).2.2.1 (by decide)⟩

/-- C3: when proving `current_block` fails, the ingestor neither advances
`current_block` nor panics; unless shutdown is requested it sleeps the 5 s
`PROVE_BLOCK_FAILURE_BACKOFF` and continues with the same block (it breaks
only when shutdown wins the back-off select); and it logs the error exactly
when the failure message does not contain `"BlockNotFound"`. -/
theorem C3_prove_failure_backoff (cur : Nat) (s : IngestStep) (msg : String)
    (hp : s.prove = ProveResult.err msg) :
    (ingestIter cur s).next = cur
    ∧ (ingestIter cur s).control ≠ Control.panicked
    ∧ ((ingestIter cur s).control = Control.brk ↔ s.backoffShutdown = true)
    ∧ (s.backoffShutdown = false →
        (ingestIter cur s).control = Control.cont
        ∧ (ingestIter cur s).slept = some PROVE_BLOCK_FAILURE_BACKOFF_SECS)
    ∧ ((ingestIter cur s).logged = true ↔ strContainsSub msg "BlockNotFound" = false) := by
  unfold ingestIter
  rw [hp]
  by_cases hb : s.backoffShutdown <;> simp [hb]

/-- A concrete ingestor iteration environment whose proving call fails with a
transport-style error message. -/
def c3step : IngestStep :=
  IngestStep.mk (ProveResult.err "connection refused") true 0 true true false false
    SendOutcome.delivered

theorem C3_prove_failure_backoff_witness :
    (ingestIter 42 c3step).control = Control.cont
    ∧ (ingestIter 42 c3step).slept = some PROVE_BLOCK_FAILURE_BACKOFF_SECS
    ∧ ((ingestIter 42 c3step).logged = true
        ↔ strContainsSub "connection refused" "BlockNotFound" = false)
    ∧ strContainsSub "connection refused" "BlockNotFound" = false :=
  ⟨((C3_prove_failure_backoff 42 c3step "connection refused" rfl).2.2.2.1 rfl).1,
   ((C3_prove_failure_backoff 42 c3step "connection refused" rfl).2.2.2.1 rfl).2,
   (C3_prove_failure_backoff 42 c3step "connection refused" rfl).2.2.2.2,
   by decide⟩

/-- C10: after a block proves successfully, the metadata RPC fetch, the debug
file creation and its JSON dump are unconditionally unwrapped: if any of them
fails the iteration panics (the stage aborts, emitting nothing further)
instead of backing off, whereas a proving failure never panics. -/
theorem C10_post_prove_unwraps (cur : Nat) (s : IngestStep) (pie : Nat)
    (hp : s.prove = ProveResult.ok pie) :
    ((s.rpcOk = false ∨ s.fileOk = false ∨ s.jsonOk = false) →
      (ingestIter cur s).control = Control.panicked
      ∧ (ingestIter cur s).slept = none
      ∧ (ingestIter cur s).next = cur
      ∧ ∀ rest, ingestRun cur (s :: rest) = [])
    ∧ (∀ (cur2 : Nat) (s2 : IngestStep) (msg : String),
        s2.prove = ProveResult.err msg →
          (ingestIter cur2 s2).control ≠ Control.panicked) := by
  constructor
  · intro hfail
    have hc : (ingestIter cur s).control = Control.panicked
        ∧ (ingestIter cur s).slept = none ∧ (ingestIter cur s).next = cur := by
      unfold ingestIter
      rw [hp]
      rcases hfail with h | h | h
      · simp [h]
      · rcases h1 : s.rpcOk <;> simp [h]
      · rcases h1 : s.rpcOk <;> rcases h2 : s.fileOk <;> simp [h]
    refine ⟨hc.1, hc.2.1, hc.2.2, ?_⟩
    intro rest
    simp [ingestRun, hc.1]
  · intro cur2 s2 msg hp2
    unfold ingestIter
    rw [hp2]
    by_cases hb : s2.backoffShutdown <;> simp [hb]

/-- A concrete post-prove environment in which the metadata RPC fetch fails. -/
def c10step : IngestStep :=
  IngestStep.mk (ProveResult.ok 7) false 0 true true false false
    SendOutcome.delivered

theorem C10_post_prove_unwraps_witness :
    (ingestIter 0 c10step).control = Control.panicked
    ∧ ingestRun 0 [c10step] = [] :=
  ⟨((C10_post_prove_unwraps 0 c10step 7 rfl).1 (Or.inl rfl)).1,
   ((C10_post_prove_unwraps 0 c10step 7 rfl).1 (Or.inl rfl)).2.2.2 []⟩

/-! ## Remote-job submission protocol (claim C1)

Both remote submissions follow the same persisted-query-id protocol:

* `AtlanticLayoutBridgeProver::worker` (layout_bridge.rs:114-150, 215-229) for
  `(block, BridgeProof)`: `db.get_query_id` — on hit resume, on miss
  `client.submit_proof_generation` **then** `db.add_query_id`;
* `AtlanticTraceGenerator::generate_trace` (atlantic.rs:34-61) for
  `(block, BridgeTrace)`: `db.get_query_id` — on hit reuse, on miss
  `client.submit_trace_generation` **then** `db.add_query_id` (with retry;
  persistent failure panics, i.e. ends the run before recording).

A run for a fixed `(block_number, query_kind)` pair is parameterised by where
it crashes (a crash anywhere after the record is indistinguishable from
`noCrash` for this protocol; a failed `add_query_id` that exhausts its retries
panics the process and is the `afterSubmitBeforeRecord` case).  Storage is the
persisted query id for the pair; records survive restarts and are never
deleted externally. -/

/-- Crash point of one run of the submit-or-resume protocol for a pair. -/
inductive SubmitCrash where
  | noCrash
  | beforeSubmit
  | afterSubmitBeforeRecord
deriving DecidableEq

/-- Observable outcome of one or more protocol runs: the persisted query id
afterwards, and how many `submit_*` calls and `add_query_id` records
happened. -/
structure SubmitRunOut where
  recorded : Option Nat
  submits : Nat
  records : Nat
deriving DecidableEq

/-- One run of the submit-or-resume protocol (layout_bridge.rs:114-229 /
atlantic.rs:34-61): read the persisted query id; if present, resume without
submitting; if absent, call the remote submit endpoint and then record the
returned query id `fresh` — unless the run crashes first. -/
def submitOrResumeRun (recorded : Option Nat) (fresh : Nat) (c : SubmitCrash) :
    SubmitRunOut :=
  match recorded with
  | some q => SubmitRunOut.mk (some q) 0 0
  | none =>
    match c with
    | SubmitCrash.beforeSubmit => SubmitRunOut.mk none 0 0
    | SubmitCrash.afterSubmitBeforeRecord => SubmitRunOut.mk none 1 0
    | SubmitCrash.noCrash => SubmitRunOut.mk (some fresh) 1 1

/-- An execution with arbitrary restarts: one protocol run per element of
`cs`, each restart threading the persisted storage through and obtaining a
distinct fresh query id from the remote prover. -/
def submitOrResumeExec : Option Nat → Nat → List SubmitCrash → SubmitRunOut
  | st, _, [] => SubmitRunOut.mk st 0 0
  | st, fresh, c :: cs =>
    match submitOrResumeRun st fresh c, submitOrResumeExec (submitOrResumeRun st fresh c).recorded (fresh + 1) cs with
    | r, rest => SubmitRunOut.mk rest.recorded (r.submits + rest.submits) (r.records + rest.records)

lemma submitOrResumeExec_some (q : Nat) :
    ∀ (cs : List SubmitCrash) (fresh : Nat),
      submitOrResumeExec (some q) fresh cs = SubmitRunOut.mk (some q) 0 0 := by
  intro cs
  induction cs with
  | nil => intro fresh; rfl
  | cons c cs ih =>
    intro fresh
    simp [submitOrResumeExec, submitOrResumeRun, ih (fresh + 1)]

lemma submitOrResumeExec_records_le_one :
    ∀ (cs : List SubmitCrash) (st : Option Nat) (fresh : Nat),
      (submitOrResumeExec st fresh cs).records ≤ 1 := by
  intro cs
  induction cs with
  | nil => intro st fresh; cases st <;> simp [submitOrResumeExec]
  | cons c cs ih =>
    intro st fresh
    cases st with
    | some q => simp [submitOrResumeExec_some]
    | none =>
      cases c with
      | noCrash =>
        simp [submitOrResumeExec, submitOrResumeRun, submitOrResumeExec_some]
      | beforeSubmit =>
        simpa [submitOrResumeExec, submitOrResumeRun] using ih none (fresh + 1)
      | afterSubmitBeforeRecord =>
        simpa [submitOrResumeExec, submitOrResumeRun] using ih none (fresh + 1)

lemma submitOrResumeExec_submits_no_midcrash :
    ∀ (cs : List SubmitCrash) (fresh : Nat),
      SubmitCrash.afterSubmitBeforeRecord ∉ cs →
      (submitOrResumeExec none fresh cs).submits ≤ 1 := by
  intro cs
  induction cs with
  | nil => intro fresh _; simp [submitOrResumeExec]
  | cons c cs ih =>
    intro fresh hmem
    cases c with
    | noCrash =>
      simp [submitOrResumeExec, submitOrResumeRun, submitOrResumeExec_some]
    | beforeSubmit =>
      have := ih (fresh + 1) (by simpa using fun h => hmem (List.mem_cons_of_mem _ h))
      simpa [submitOrResumeExec, submitOrResumeRun] using this
    | afterSubmitBeforeRecord =>
      exact absurd (List.mem_cons_self _ _) hmem

/-- C1 counterexample: two consecutive runs that each crash between the
remote submit call and the `add_query_id` record (e.g. a crash right after
`client.submit_proof_generation` at layout_bridge.rs:215-222 and before
`db.add_query_id` at layout_bridge.rs:223-229) make the submit endpoint
receive two calls for the same `(block_number, query_kind)` pair, refuting
at-most-once submission across arbitrary restarts. -/
theorem C1_at_most_once_counterexample :
    ¬ ((submitOrResumeExec none 0
          [SubmitCrash.afterSubmitBeforeRecord,
           SubmitCrash.afterSubmitBeforeRecord]).submits ≤ 1) := by
  decide

/-- C1 (amended): writers read the persisted query id first and submit only
if it is absent, so a single run submits at most once (and never when a query
id is already recorded); at most one query id is ever recorded per pair; and
across arbitrary restarts the submit endpoint receives at most one call per
pair **provided no run crashes between the submit call and the recording of
its query id** — a crash in that window yields an extra submission on
restart. -/
theorem C1_at_most_once_amended (st : Option Nat) (fresh : Nat)
    (c : SubmitCrash) (cs : List SubmitCrash) :
    (submitOrResumeRun st fresh c).submits ≤ 1
    ∧ (st.isSome = true → (submitOrResumeRun st fresh c).submits = 0)
    ∧ (submitOrResumeExec st fresh cs).records ≤ 1
    ∧ (SubmitCrash.afterSubmitBeforeRecord ∉ cs →
        (submitOrResumeExec none fresh cs).submits ≤ 1) := by
  refine ⟨?_, ?_, submitOrResumeExec_records_le_one cs st fresh,
    submitOrResumeExec_submits_no_midcrash cs fresh⟩
  · cases st with
    | some q => simp [submitOrResumeRun]
    | none => cases c <;> simp [submitOrResumeRun]
  · intro hs
    cases st with
    | some q => simp [submitOrResumeRun]
    | none => cases hs

theorem C1_at_most_once_amended_witness :
    (submitOrResumeRun (some 9) 1 SubmitCrash.noCrash).submits = 0
    ∧ (submitOrResumeExec none 0 [SubmitCrash.beforeSubmit, SubmitCrash.noCrash]).records ≤ 1
    ∧ (submitOrResumeExec none 0 [SubmitCrash.beforeSubmit, SubmitCrash.noCrash]).submits ≤ 1 :=
  ⟨(C1_at_most_once_amended (some 9) 1 SubmitCrash.noCrash []).2.1 (by decide),
   (C1_at_most_once_amended none 0 SubmitCrash.noCrash
      [SubmitCrash.beforeSubmit, SubmitCrash.noCrash]).2.2.1,
   (C1_at_most_once_amended none 0 SubmitCrash.noCrash
      [SubmitCrash.beforeSubmit, SubmitCrash.noCrash]).2.2.2 (by decide)⟩

/-! ## Layout-bridge trace retry (`layout_bridge.rs:160-192`)

When no PIE is cached, the worker invokes the trace generator in a loop with
an `attempts` counter: on success it breaks out with the PIE; on failure it
increments `attempts`, panics when `attempts >= MAX_ATTEMPTS`, and otherwise
sleeps 1 s and retries. -/

/-- `MAX_ATTEMPTS` (layout_bridge.rs:162). -/
def MAX_ATTEMPTS : Nat := 3

/-- The fixed delay between trace-generation attempts (layout_bridge.rs:188),
in seconds. -/
def TRACE_RETRY_DELAY_SECS : Nat := 1

/-- Outcome of the trace-retry loop: how many times `generate_trace` was
invoked, how many 1 s sleeps separated consecutive attempts, and the PIE on
success (`none` models the fatal panic). -/
structure TraceRetryOut where
  calls : Nat
  sleeps : Nat
  result : Option Nat
deriving DecidableEq

/-- The retry loop of layout_bridge.rs:160-192, with `outcomes i` the result
of the `i`-th `generate_trace` invocation.  `attempts` mirrors the source's
counter; the second argument is `MAX_ATTEMPTS - attempts`, which bounds the
recursion exactly as the `attempts >= MAX_ATTEMPTS` panic does.  Each
recursive step crosses one `tokio::time::sleep(1 s)`; the final failing
attempt panics before sleeping, so `sleeps` is `attempts - 1` there. -/
def traceRetryGo (outcomes : Nat → Option Nat) : Nat → Nat → TraceRetryOut
  | attempts, 0 => TraceRetryOut.mk attempts (attempts - 1) none
  | attempts, r + 1 =>
    match outcomes attempts with
    | some pie => TraceRetryOut.mk (attempts + 1) attempts (some pie)
    | none => traceRetryGo outcomes (attempts + 1) r

/-- The whole retry block (layout_bridge.rs:160-192): start with no attempts
and the `MAX_ATTEMPTS = 3` budget. -/
def traceRetry (outcomes : Nat → Option Nat) : TraceRetryOut :=
  traceRetryGo outcomes 0 MAX_ATTEMPTS

/-- C6: with no cached trace PIE, the trace generator is invoked at most 3
times with a 1 s sleep between consecutive attempts (`sleeps = calls - 1`);
the first success breaks out with the PIE after exactly as many calls as
failures before it plus one; and three consecutive failures are fatal with
exactly 3 calls made — there is never a fourth attempt. -/
theorem C6_trace_retry (outcomes : Nat → Option Nat) :
    (traceRetry outcomes).calls ≤ MAX_ATTEMPTS
    ∧ (traceRetry outcomes).sleeps + 1 = (traceRetry outcomes).calls
    ∧ ((outcomes 0 = none ∧ outcomes 1 = none ∧ outcomes 2 = none) →
        traceRetry outcomes = TraceRetryOut.mk 3 2 none)
    ∧ (∀ pie, outcomes 0 = some pie →
        traceRetry outcomes = TraceRetryOut.mk 1 0 (some pie))
    ∧ (∀ pie, outcomes 0 = none → outcomes 1 = some pie →
        traceRetry outcomes = TraceRetryOut.mk 2 1 (some pie))
    ∧ (∀ pie, outcomes 0 = none → outcomes 1 = none → outcomes 2 = some pie →
        traceRetry outcomes = TraceRetryOut.mk 3 2 (some pie)) := by
  rcases h0 : outcomes 0 with _ | p0
  · rcases h1 : outcomes 1 with _ | p1
    · rcases h2 : outcomes 2 with _ | p2 <;>
        simp [traceRetry, traceRetryGo, MAX_ATTEMPTS, h0, h1, h2]
    · simp [traceRetry, traceRetryGo, MAX_ATTEMPTS, h0, h1]
  · simp [traceRetry, traceRetryGo, MAX_ATTEMPTS, h0]

theorem C6_trace_retry_witness :
    traceRetry (fun i => if i = 1 then some 42 else none)
      = TraceRetryOut.mk 2 1 (some 42)
    ∧ (traceRetry (fun _ => none)).calls ≤ MAX_ATTEMPTS
    ∧ traceRetry (fun _ => none) = TraceRetryOut.mk 3 2 none :=
  ⟨(C6_trace_retry (fun i => if i = 1 then some 42 else none)).2.2.2.2.1 42
      (by decide) (by decide),
   (C6_trace_retry (fun _ => none)).1,
   (C6_trace_retry (fun _ => none)).2.2.1 ⟨rfl, rfl, rfl⟩⟩

/-! ## Layout-bridge worker (`layout_bridge.rs:56-261`)

`AtlanticLayoutBridgeProver::worker` processes one `SnosProof` per loop
iteration.  After parsing the SNOS proof it converts the `u64` block number
with `try_into().unwrap()` (layout_bridge.rs:82) — a panic when the value
does not fit in a `u32` — and only then touches storage.  The paths are:

* Step A (layout_bridge.rs:84-113): `db.get_proof` hit → parse and
  `task_tx.send(new_proof).await.unwrap()` (layout_bridge.rs:104) — a plain
  awaited send, not under shutdown-select;
* Step B (layout_bridge.rs:114-150): `db.get_query_id` hit → poll, fetch and
  persist the proof, then `task_tx.send(new_proof).await.unwrap()`
  (layout_bridge.rs:141) — again a plain send;
* fresh path (layout_bridge.rs:151-259): `db.get_pie` (reuse or run the
  trace-retry loop, compress and `db.add_pie`), `submit_proof_generation`,
  `db.add_query_id`, poll, fetch and persist, then send inside
  `tokio::select!` against `shutdown_requested()` (layout_bridge.rs:256-259). -/

/-- How a `RecursiveProof` send is performed. -/
inductive SendMode where
  | plainUnwrap
  | underShutdownSelect
deriving DecidableEq

/-- Storage, remote-prover and channel operations the worker performs for one
block, in order; storage operations carry their `u32` key. -/
inductive WorkerEvent where
  | getProofStore (key : Nat)
  | getQueryIdStore (key : Nat)
  | getPieStore (key : Nat)
  | traceGenerate (key : Nat) (attempt : Nat)
  | addPieStore (key : Nat)
  | submitProofGeneration
  | addQueryIdStore (key : Nat)
  | waitForProofPoll
  | fetchAndPersistProof (key : Nat)
  | sendRecursiveProof (mode : SendMode)
deriving DecidableEq

/-- How the worker leaves one iteration. -/
inductive WorkerExit where
  | processed
  | panicked
deriving DecidableEq

/-- The number of `u32` values: `block_number.try_into::<u32>()` succeeds
exactly when the value is below this bound. -/
def U32_BOUND : Nat := 2 ^ 32

/-- Environment of one worker iteration for an input `SnosProof`: the block
number, the persisted records for that block, and the results of the
successive trace-generation attempts (used only when no PIE is cached). -/
structure WorkerEnv where
  blockNumber : Nat
  storedBridgeProof : Option (List Nat)
  storedBridgeQueryId : Option Nat
  storedBridgePie : Option (List Nat)
  traceResults : Nat → Option Nat

/-- One iteration of `AtlanticLayoutBridgeProver::worker`
(layout_bridge.rs:68-260) on a received `SnosProof`, as the ordered list of
operations it performs and how it exits.  The `u64 → u32` conversion at
layout_bridge.rs:82 precedes every storage and remote operation. -/
def workerBlock (env : WorkerEnv) : List WorkerEvent × WorkerExit :=
  if env.blockNumber < U32_BOUND then
    match env.storedBridgeProof with
    | some _ =>
      ([WorkerEvent.getProofStore env.blockNumber,
        WorkerEvent.sendRecursiveProof SendMode.plainUnwrap], WorkerExit.processed)
    | none =>
      match env.storedBridgeQueryId with
      | some _ =>
        ([WorkerEvent.getProofStore env.blockNumber,
          WorkerEvent.getQueryIdStore env.blockNumber,
          WorkerEvent.waitForProofPoll,
          WorkerEvent.fetchAndPersistProof env.blockNumber,
          WorkerEvent.sendRecursiveProof SendMode.plainUnwrap], WorkerExit.processed)
      | none =>
        match env.storedBridgePie with
        | some _ =>
          ([WorkerEvent.getProofStore env.blockNumber,
            WorkerEvent.getQueryIdStore env.blockNumber,
            WorkerEvent.getPieStore env.blockNumber,
            WorkerEvent.submitProofGeneration,
            WorkerEvent.addQueryIdStore env.blockNumber,
            WorkerEvent.waitForProofPoll,
            WorkerEvent.fetchAndPersistProof env.blockNumber,
            WorkerEvent.sendRecursiveProof SendMode.underShutdownSelect],
           WorkerExit.processed)
        | none =>
          match (traceRetry env.traceResults).result with
          | none =>
            ([WorkerEvent.getProofStore env.blockNumber,
              WorkerEvent.getQueryIdStore env.blockNumber,
              WorkerEvent.getPieStore env.blockNumber]
              ++ (List.range (traceRetry env.traceResults).calls).map
                  (fun i => WorkerEvent.traceGenerate env.blockNumber i),
             WorkerExit.panicked)
          | some _ =>
            ([WorkerEvent.getProofStore env.blockNumber,
              WorkerEvent.getQueryIdStore env.blockNumber,
              WorkerEvent.getPieStore env.blockNumber]
              ++ (List.range (traceRetry env.traceResults).calls).map
                  (fun i => WorkerEvent.traceGenerate env.blockNumber i)
              ++ [WorkerEvent.addPieStore env.blockNumber,
                  WorkerEvent.submitProofGeneration,
                  WorkerEvent.addQueryIdStore env.blockNumber,
                  WorkerEvent.waitForProofPoll,
                  WorkerEvent.fetchAndPersistProof env.blockNumber,
                  WorkerEvent.sendRecursiveProof SendMode.underShutdownSelect],
             WorkerExit.processed)
  else ([], WorkerExit.panicked)

/-- The storage key an event carries, if it is a storage or trace operation. -/
def eventKey : WorkerEvent → Option Nat
  | WorkerEvent.getProofStore k => some k
  | WorkerEvent.getQueryIdStore k => some k
  | WorkerEvent.getPieStore k => some k
  | WorkerEvent.traceGenerate k _ => some k
  | WorkerEvent.addPieStore k => some k
  | WorkerEvent.addQueryIdStore k => some k
  | WorkerEvent.fetchAndPersistProof k => some k
  | WorkerEvent.submitProofGeneration => none
  | WorkerEvent.waitForProofPoll => none
  | WorkerEvent.sendRecursiveProof _ => none

/-- The send mode of an event, when the event is a `RecursiveProof` send. -/
def sendModeOf : WorkerEvent → Option SendMode
  | WorkerEvent.sendRecursiveProof m => some m
  | _ => none

/-- The send modes of the `RecursiveProof` sends a worker iteration performs,
in order. -/
def workerSends (env : WorkerEnv) : List SendMode :=
  (workerBlock env).1.filterMap sendModeOf

lemma filterMap_sendModeOf_traceGen (bn : Nat) (l : List Nat) :
    (l.map (fun i => WorkerEvent.traceGenerate bn i)).filterMap sendModeOf = [] := by
  induction l with
  | nil => rfl
  | cons a l ih => simp [List.filterMap_cons, sendModeOf, ih]

/-- C4 counterexample: on the Step A final-proof cache-hit path
(layout_bridge.rs:104) and on the Step B resumed in-flight-job path
(layout_bridge.rs:141), the `RecursiveProof` send is a plain awaited
`send(..).unwrap()`, not a send racing shutdown — refuting the claim that
every send on the downstream proof channel is performed under
shutdown-select. -/
theorem C4_send_select_counterexample :
    workerSends (WorkerEnv.mk 0 (some []) none none (fun _ => none))
      = [SendMode.plainUnwrap]
    ∧ workerSends (WorkerEnv.mk 0 none (some 7) none (fun _ => none))
      = [SendMode.plainUnwrap]
    ∧ SendMode.plainUnwrap ≠ SendMode.underShutdownSelect := by
  refine ⟨by decide, by decide, by decide⟩

/-- C4 (amended): only the freshly-computed path sends the `RecursiveProof`
under shutdown-select (layout_bridge.rs:256-259); the Step A cache-hit path
and the Step B resumed-job path send with a plain awaited, unwrapped send
(layout_bridge.rs:104 and layout_bridge.rs:141). -/
theorem C4_send_select_amended (env : WorkerEnv) (hb : env.blockNumber < U32_BOUND) :
    (env.storedBridgeProof.isSome = true →
        workerSends env = [SendMode.plainUnwrap])
    ∧ (env.storedBridgeProof = none → env.storedBridgeQueryId.isSome = true →
        workerSends env = [SendMode.plainUnwrap])
    ∧ (env.storedBridgeProof = none → env.storedBridgeQueryId = none →
        (workerBlock env).2 = WorkerExit.processed →
        workerSends env = [SendMode.underShutdownSelect]) := by
  refine ⟨?_, ?_, ?_⟩
  · intro hs
    rcases hP : env.storedBridgeProof with _ | p
    · rw [hP] at hs
      cases hs
    · simp [workerSends, workerBlock, hb, hP, sendModeOf]
  · intro hP hs
    rcases hQ : env.storedBridgeQueryId with _ | q
    · rw [hQ] at hs
      cases hs
    · simp [workerSends, workerBlock, hb, hP, hQ, sendModeOf]
  · intro hP hQ hexit
    rcases hPie : env.storedBridgePie with _ | pie
    · rcases hres : (traceRetry env.traceResults).result with _ | r
      · exfalso
        simp [workerBlock, hb, hP, hQ, hPie, hres] at hexit
      · simp [workerSends, workerBlock, hb, hP, hQ, hPie, hres,
          List.filterMap_append, filterMap_sendModeOf_traceGen, sendModeOf]
    · simp [workerSends, workerBlock, hb, hP, hQ, hPie, sendModeOf]

theorem C4_send_select_amended_witness :
    workerSends (WorkerEnv.mk 5 none none (some []) (fun _ => none))
      = [SendMode.underShutdownSelect]
    ∧ workerSends (WorkerEnv.mk 6 (some [1]) none none (fun _ => none))
      = [SendMode.plainUnwrap] :=
  ⟨(C4_send_select_amended (WorkerEnv.mk 5 none none (some []) (fun _ => none))
      (by decide)).2.2 rfl rfl (by decide),
   (C4_send_select_amended (WorkerEnv.mk 6 (some [1]) none none (fun _ => none))
      (by decide)).1 rfl⟩

/-- C9: an input `SnosProof` whose `block_number` does not fit in a `u32`
makes the worker panic at the `try_into().unwrap()` conversion
(layout_bridge.rs:82) before any storage lookup or remote submission — the
event list is empty — and every storage (or trace) operation the worker ever
performs carries the `u32` block number (a value below `2 ^ 32`) as its
key. -/
theorem C9_u32_conversion (env : WorkerEnv) :
    U32_BOUND = 2 ^ 32
    ∧ (U32_BOUND ≤ env.blockNumber → workerBlock env = ([], WorkerExit.panicked))
    ∧ (∀ e ∈ (workerBlock env).1, ∀ k, eventKey e = some k →
        k = env.blockNumber ∧ k < U32_BOUND) := by
  refine ⟨rfl, ?_, ?_⟩
  · intro hge
    have h : ¬ env.blockNumber < U32_BOUND := Nat.not_lt.mpr hge
    simp [workerBlock, h]
  · intro e he k hk
    by_cases h : env.blockNumber < U32_BOUND
    · rcases hP : env.storedBridgeProof with _ | p
      · rcases hQ : env.storedBridgeQueryId with _ | q
        · rcases hPie : env.storedBridgePie with _ | pie
          · rcases hres : (traceRetry env.traceResults).result with _ | r
            · simp [workerBlock, h, hP, hQ, hPie, hres] at he
              rcases he with rfl | rfl | rfl | ⟨i, _, rfl⟩ <;>
                simp [eventKey] at hk <;> omega
            · simp [workerBlock, h, hP, hQ, hPie, hres] at he
              rcases he with rfl | rfl | rfl | ⟨i, _, rfl⟩ | rfl | rfl | rfl | rfl | rfl | rfl <;>
                simp [eventKey] at hk <;> omega
          · simp [workerBlock, h, hP, hQ, hPie] at he
            rcases he with rfl | rfl | rfl | rfl | rfl | rfl | rfl | rfl <;>
              simp [eventKey] at hk <;> omega
        · simp [workerBlock, h, hP, hQ] at he
          rcases he with rfl | rfl | rfl | rfl | rfl <;>
            simp [eventKey] at hk <;> omega
      · simp [workerBlock, h, hP] at he
        rcases he with rfl | rfl <;> simp [eventKey] at hk
        omega
    · simp [workerBlock, h] at he

theorem C9_u32_conversion_witness :
    workerBlock (WorkerEnv.mk U32_BOUND none none none (fun _ => none))
      = ([], WorkerExit.panicked)
    ∧ (5 = 5 ∧ 5 < U32_BOUND) :=
  ⟨(C9_u32_conversion (WorkerEnv.mk U32_BOUND none none none (fun _ => none))).2.1
      (by decide),
   (C9_u32_conversion (WorkerEnv.mk 5 (some []) none none (fun _ => none))).2.2
      (WorkerEvent.getProofStore 5) (by decide) 5 (by decide)⟩

/-! ## Remote-job polling loops (claim C5)

`AtlanticLayoutBridgeProver::wait_for_proof` (layout_bridge.rs:287-315):
every `PROOF_STATUS_POLL_INTERVAL = 10 s` sleep, **probe shutdown and break
if requested** (layout_bridge.rs:295-297), then `get_query_jobs`; transport
errors are ignored; the job named `"PROOF_GENERATION"` decides: `Completed`
breaks, `Failed` panics, `InProgress` keeps polling.

`AtlanticTraceGenerator::generate_trace`'s polling loop (atlantic.rs:67-90):
every 10 s sleep, then `get_query_jobs`; the job named `"TRACE_GENERATION"`
is handled with the same status policy — but the loop has **no access to any
shutdown handle and contains no shutdown probe**. -/

/-- Remote job status (`AtlanticJobStatus`). -/
inductive AtlanticJobStatus where
  | inProgress
  | completed
  | failed
deriving DecidableEq

/-- One entry of the job list returned by `get_query_jobs`. -/
structure AtlanticJob where
  jobName : String
  status : AtlanticJobStatus
deriving DecidableEq

/-- `PROOF_GENERATION_JOB_NAME` (prover/atlantic module). -/
def PROOF_GENERATION_JOB_NAME : String := "PROOF_GENERATION"

/-- `TRACE_GENERATION_JOB_NAME` (atlantic.rs:13). -/
def TRACE_GENERATION_JOB_NAME : String := "TRACE_GENERATION"

/-- `PROOF_STATUS_POLL_INTERVAL` of layout_bridge.rs:26, in seconds. -/
def layoutBridgePollIntervalSecs : Nat := 10

/-- `PROOF_STATUS_POLL_INTERVAL` of atlantic.rs:12, in seconds. -/
def tracePollIntervalSecs : Nat := 10

/-- What one polling tick decides to do next. -/
inductive PollAction where
  | exitLoop
  | fatal
  | keepPolling
deriving DecidableEq

/-- One tick of `wait_for_proof` (layout_bridge.rs:292-314): after the sleep,
break if shutdown is requested; then poll — `none` models a transport error
(ignored); otherwise find the `"PROOF_GENERATION"` record and act on its
status. -/
def waitForProofTick (shutdownRequested : Bool)
    (resp : Option (List AtlanticJob)) : PollAction :=
  if shutdownRequested then PollAction.exitLoop
  else
    match resp with
    | none => PollAction.keepPolling
    | some jobs =>
      match jobs.find? (fun j => j.jobName == PROOF_GENERATION_JOB_NAME) with
      | none => PollAction.keepPolling
      | some job =>
        match job.status with
        | AtlanticJobStatus.completed => PollAction.exitLoop
        | AtlanticJobStatus.failed => PollAction.fatal
        | AtlanticJobStatus.inProgress => PollAction.keepPolling

/-- One tick of the `generate_trace` polling loop (atlantic.rs:67-90): after
the sleep, poll — the loop has no shutdown input at all; `none` models a
transport error (ignored); otherwise find the `"TRACE_GENERATION"` record
and act on its status. -/
def traceGenTick (resp : Option (List AtlanticJob)) : PollAction :=
  match resp with
  | none => PollAction.keepPolling
  | some jobs =>
    match jobs.find? (fun j => j.jobName == TRACE_GENERATION_JOB_NAME) with
    | none => PollAction.keepPolling
    | some job =>
      match job.status with
      | AtlanticJobStatus.completed => PollAction.exitLoop
      | AtlanticJobStatus.failed => PollAction.fatal
      | AtlanticJobStatus.inProgress => PollAction.keepPolling

/-- Modelled from the spec: the claim's trace polling loop, behaving
"identically to §4.4 Step E" on the record named `"TRACE_GENERATION"` with
"shutdown probed between sleeps so the poll yields promptly" — i.e.
`wait_for_proof`'s tick with the trace job name. -/
def traceGenTickSpec (shutdownRequested : Bool)
    (resp : Option (List AtlanticJob)) : PollAction :=
  if shutdownRequested then PollAction.exitLoop
  else
    match resp with
    | none => PollAction.keepPolling
    | some jobs =>
      match jobs.find? (fun j => j.jobName == TRACE_GENERATION_JOB_NAME) with
      | none => PollAction.keepPolling
      | some job =>
        match job.status with
        | AtlanticJobStatus.completed => PollAction.exitLoop
        | AtlanticJobStatus.failed => PollAction.fatal
        | AtlanticJobStatus.inProgress => PollAction.keepPolling

/-- Run `wait_for_proof` over a finite environment of ticks (shutdown flag
observed after each sleep, poll response); result: the number of ticks
consumed until the loop exits and whether it exited by panic, or `none` if
the loop is still polling when the environment ends. -/
def waitForProofRun : List (Bool × Option (List AtlanticJob)) → Option (Nat × Bool)
  | [] => none
  | t :: rest =>
    match waitForProofTick t.1 t.2 with
    | PollAction.exitLoop => some (1, false)
    | PollAction.fatal => some (1, true)
    | PollAction.keepPolling =>
      match waitForProofRun rest with
      | some (n, p) => some (n + 1, p)
      | none => none

/-- Run the `generate_trace` polling loop over its tick environment — only
the poll responses, since the loop reads no shutdown state. -/
def traceGenRun : List (Option (List AtlanticJob)) → Option (Nat × Bool)
  | [] => none
  | r :: rest =>
    match traceGenTick r with
    | PollAction.exitLoop => some (1, false)
    | PollAction.fatal => some (1, true)
    | PollAction.keepPolling =>
      match traceGenRun rest with
      | some (n, p) => some (n + 1, p)
      | none => none

/-- Run of the spec-modelled trace polling loop of the claim. -/
def traceGenRunSpec : List (Bool × Option (List AtlanticJob)) → Option (Nat × Bool)
  | [] => none
  | t :: rest =>
    match traceGenTickSpec t.1 t.2 with
    | PollAction.exitLoop => some (1, false)
    | PollAction.fatal => some (1, true)
    | PollAction.keepPolling =>
      match traceGenRunSpec rest with
      | some (n, p) => some (n + 1, p)
      | none => none

/-- C5 counterexample: with shutdown requested and transport errors on every
poll, the claimed loop (and `wait_for_proof`, which the claim says it is
identical to) exits promptly at the first tick, but the code's trace polling
loop (atlantic.rs:67-90) never exits: it contains no shutdown probe.  The
environments below agree tick-for-tick on the poll responses. -/
theorem C5_trace_poll_counterexample :
    traceGenRun [none, none, none] = none
    ∧ traceGenRunSpec [(true, none), (true, none), (true, none)] = some (1, false)
    ∧ waitForProofRun [(true, none), (true, none), (true, none)] = some (1, false) := by
  refine ⟨by decide, by decide, by decide⟩

/-- C5 (amended): the trace generator's polling loop matches §4.4 Step E's
status handling — every 10 seconds (both intervals are 10 s) it inspects the
record named `"TRACE_GENERATION"`: `Completed` exits the loop, `Failed` is
fatal, `InProgress` continues, transport errors and an absent record are
ignored — but unlike Step E it never probes shutdown: the loop reads no
shutdown state, while `wait_for_proof` exits at the first tick after
shutdown is requested. -/
theorem C5_trace_poll_amended :
    tracePollIntervalSecs = 10
    ∧ tracePollIntervalSecs = layoutBridgePollIntervalSecs
    ∧ (∀ resp, waitForProofTick true resp = PollAction.exitLoop)
    ∧ traceGenTick none = PollAction.keepPolling
    ∧ waitForProofTick false none = PollAction.keepPolling
    ∧ (∀ jobs, jobs.find? (fun j => j.jobName == TRACE_GENERATION_JOB_NAME) = none →
        traceGenTick (some jobs) = PollAction.keepPolling)
    ∧ (∀ jobs job,
        jobs.find? (fun j => j.jobName == TRACE_GENERATION_JOB_NAME) = some job →
        traceGenTick (some jobs)
          = (match job.status with
             | AtlanticJobStatus.completed => PollAction.exitLoop
             | AtlanticJobStatus.failed => PollAction.fatal
             | AtlanticJobStatus.inProgress => PollAction.keepPolling))
    ∧ (∀ jobs job,
        jobs.find? (fun j => j.jobName == PROOF_GENERATION_JOB_NAME) = some job →
        waitForProofTick false (some jobs)
          = (match job.status with
             | AtlanticJobStatus.completed => PollAction.exitLoop
             | AtlanticJobStatus.failed => PollAction.fatal
             | AtlanticJobStatus.inProgress => PollAction.keepPolling)) := by
  refine ⟨rfl, rfl, ?_, rfl, rfl, ?_, ?_, ?_⟩
  · intro resp
    rfl
  · intro jobs hfind
    simp [traceGenTick, hfind]
  · intro jobs job hfind
    simp [traceGenTick, hfind]
  · intro jobs job hfind
    simp [waitForProofTick, hfind]

theorem C5_trace_poll_amended_witness :
    traceGenTick (some [AtlanticJob.mk "TRACE_GENERATION" AtlanticJobStatus.completed])
      = PollAction.exitLoop
    ∧ waitForProofTick false
        (some [AtlanticJob.mk "PROOF_GENERATION" AtlanticJobStatus.failed])
      = PollAction.fatal
    ∧ waitForProofTick true none = PollAction.exitLoop :=
  ⟨(C5_trace_poll_amended).2.2.2.2.2.2.1
      [AtlanticJob.mk "TRACE_GENERATION" AtlanticJobStatus.completed]
      (AtlanticJob.mk "TRACE_GENERATION" AtlanticJobStatus.completed) (by decide),
   (C5_trace_poll_amended).2.2.2.2.2.2.2
      [AtlanticJob.mk "PROOF_GENERATION" AtlanticJobStatus.failed]
      (AtlanticJob.mk "PROOF_GENERATION" AtlanticJobStatus.failed) (by decide),
   (C5_trace_poll_amended).2.2.1 none⟩

/-! ## Settlement backend (`src/saya/core/src/settlement/piltover.rs`)

`PiltoverSettlementBackend::run` (piltover.rs:91-261) processes each DA
cursor.  When `use_mock_layout_bridge` is false (piltover.rs:103-178) it
splits the layout-bridge proof into integrity call chunks, fetches the
account nonce once (`self.account.get_nonce()`, piltover.rs:129), and for
each chunk in order sends a transaction with the current nonce, watches it to
confirmation (`watch_tx`, piltover.rs:150), adds the receipt's `actual_fee`
to the running total and increments the nonce by one (piltover.rs:169-170).
The `program_output` for `update_state` (piltover.rs:180-193) is
`[0, 0, 0, 0, poseidon_hash_many(snos_output)]` when mocked, else
`calculate_output(layout_bridge_proof)`.  Felts are modelled as `Nat`; the
external `calculate_output` and `poseidon_hash_many` (crates outside this
repository's core sources) are parameters. -/

/-- Nonce-relevant operations of the integrity dispatch, in order. -/
inductive SettleEvent where
  | fetchNonce
  | sendTx (chunkIdx : Nat) (nonce : Nat)
  | watchTx (chunkIdx : Nat)
deriving DecidableEq

/-- The chunk-submission loop (piltover.rs:134-171): one `sendTx` with the
current nonce followed by its `watchTx`, per chunk; the chunk's receipt fee
(environment `chunkFees`) is summed; the nonce goes up by one per chunk. -/
def integrityLoop (nonce idx : Nat) : List Nat → List SettleEvent × Nat
  | [] => ([], 0)
  | fee :: rest =>
    match integrityLoop (nonce + 1) (idx + 1) rest with
    | (evs, tot) =>
      (SettleEvent.sendTx idx nonce :: SettleEvent.watchTx idx :: evs, fee + tot)

/-- The whole integrity dispatch (piltover.rs:103-178): fetch the nonce once,
then run the chunk loop. -/
def integrityDispatch (nonce0 : Nat) (chunkFees : List Nat) :
    List SettleEvent × Nat :=
  (SettleEvent.fetchNonce :: (integrityLoop nonce0 0 chunkFees).1,
   (integrityLoop nonce0 0 chunkFees).2)

/-- A `RecursiveProof` as consumed by the settlement backend, with the proof
payload kept abstract. -/
structure RecursiveProofItem (P : Type) where
  blockNumber : Nat
  snosOutput : List Nat
  layoutBridgeProof : P

/-- Observable outcome of settling one DA item: the integrity dispatch
events, the reported total fee, and the `program_output` passed to
`update_state`. -/
structure SettleOut where
  integrityEvents : List SettleEvent
  totalFee : Nat
  programOutput : List Nat
deriving DecidableEq

/-- One item of `PiltoverSettlementBackend::run` (piltover.rs:91-261), up to
the `update_state` call assembly.  `calcOutput` and `poseidonHashMany` stand
for the external `calculate_output` and `poseidon_hash_many`; `nonce0` is
the fetched account nonce and `chunkFees` the receipt fees of the integrity
call chunks `split_calls` produced. -/
def settleItem {P : Type} (useMockLayoutBridge : Bool)
    (calcOutput : P → List Nat) (poseidonHashMany : List Nat → Nat)
    (nonce0 : Nat) (chunkFees : List Nat) (item : RecursiveProofItem P) :
    SettleOut :=
  let ir : List SettleEvent × Nat :=
    if useMockLayoutBridge then ([], 0) else integrityDispatch nonce0 chunkFees
  SettleOut.mk ir.1 ir.2
    (if useMockLayoutBridge then
      [0, 0, 0, 0, poseidonHashMany item.snosOutput]
    else calcOutput item.layoutBridgeProof)

lemma integrityLoop_closed (chunkFees : List Nat) :
    ∀ nonce idx : Nat,
      integrityLoop nonce idx chunkFees
        = ((List.range chunkFees.length).flatMap
            (fun i => [SettleEvent.sendTx (idx + i) (nonce + i),
                       SettleEvent.watchTx (idx + i)]),
           chunkFees.sum) := by
  induction chunkFees with
  | nil => intro nonce idx; simp [integrityLoop]
  | cons fee rest ih =>
    intro nonce idx
    simp only [integrityLoop, ih (nonce + 1) (idx + 1), List.length_cons,
      List.range_succ_eq_map, List.flatMap_cons, List.flatMap_map, List.sum_cons,
      Prod.mk.injEq]
    refine ⟨?_, trivial⟩
    have hf : (fun i => [SettleEvent.sendTx (idx + 1 + i) (nonce + 1 + i),
                         SettleEvent.watchTx (idx + 1 + i)])
        = (fun i => [SettleEvent.sendTx (idx + Nat.succ i) (nonce + Nat.succ i),
                     SettleEvent.watchTx (idx + Nat.succ i)]) := by
      funext i
      have h1 : idx + 1 + i = idx + Nat.succ i := by omega
      have h2 : nonce + 1 + i = nonce + Nat.succ i := by omega
      rw [h1, h2]
    rw [hf]
    simp

/-- C7: in the non-mocked settlement path the account nonce is fetched
exactly once per settled item; the integrity call chunks are submitted
strictly sequentially — the `k`-th chunk's transaction uses nonce
`nonce0 + k` and is watched to confirmation before the next chunk is sent —
and the reported total fee is the sum of `actual_fee` over all chunk
receipts. -/
theorem C7_integrity_sequential {P : Type} (calcOutput : P → List Nat)
    (poseidonHashMany : List Nat → Nat) (nonce0 : Nat) (chunkFees : List Nat)
    (item : RecursiveProofItem P) :
    (settleItem false calcOutput poseidonHashMany nonce0 chunkFees
        item).integrityEvents
      = SettleEvent.fetchNonce
          :: (List.range chunkFees.length).flatMap
              (fun i => [SettleEvent.sendTx i (nonce0 + i), SettleEvent.watchTx i])
    ∧ (settleItem false calcOutput poseidonHashMany nonce0 chunkFees
        item).totalFee = chunkFees.sum
    ∧ ((settleItem false calcOutput poseidonHashMany nonce0 chunkFees
        item).integrityEvents.count SettleEvent.fetchNonce) = 1 := by
  have hclosed := integrityLoop_closed chunkFees nonce0 0
  have hev : (settleItem false calcOutput poseidonHashMany nonce0 chunkFees
      item).integrityEvents
      = SettleEvent.fetchNonce
          :: (List.range chunkFees.length).flatMap
              (fun i => [SettleEvent.sendTx i (nonce0 + i), SettleEvent.watchTx i]) := by
    simp [settleItem, integrityDispatch, hclosed]
  refine ⟨hev, ?_, ?_⟩
  · simp [settleItem, integrityDispatch, hclosed]
  · rw [hev, List.count_cons]
    have hz : ((List.range chunkFees.length).flatMap
        (fun i => [SettleEvent.sendTx i (nonce0 + i),
                   SettleEvent.watchTx i])).count SettleEvent.fetchNonce = 0 := by
      rw [List.count_eq_zero]
      simp [List.mem_flatMap]
    simp [hz]

/-- C8: when `use_mock_layout_bridge` is true, the settlement backend
performs no proof-verification dispatch — no nonce fetch and no integrity
transactions at all, with a zero reported fee — and the `program_output`
passed to `update_state` is exactly the 5-element vector whose index 4 is
`poseidon_hash_many(snos_output)` and whose other four elements are zero;
when false, `program_output = calculate_output(layout_bridge_proof)`. -/
theorem C8_mock_program_output {P : Type} (calcOutput : P → List Nat)
    (poseidonHashMany : List Nat → Nat) (nonce0 : Nat) (chunkFees : List Nat)
    (item : RecursiveProofItem P) :
    (settleItem true calcOutput poseidonHashMany nonce0 chunkFees
        item).integrityEvents = []
    ∧ (settleItem true calcOutput poseidonHashMany nonce0 chunkFees
        item).totalFee = 0
    ∧ (settleItem true calcOutput poseidonHashMany nonce0 chunkFees
        item).programOutput
        = [0, 0, 0, 0, poseidonHashMany item.snosOutput]
    ∧ (settleItem true calcOutput poseidonHashMany nonce0 chunkFees
        item).programOutput.length = 5
    ∧ (settleItem false calcOutput poseidonHashMany nonce0 chunkFees
        item).programOutput = calcOutput item.layoutBridgeProof :=
  ⟨rfl, rfl, rfl, rfl, rfl⟩
